import Mathlib

/-!
# Verification of the pvlib "infinite sheds" bifacial irradiance model

Shallow embedding of `pvlib/infinite_sheds.py` over the real numbers.
Scalars of the Python code (numpy "numeric" values) are modelled as `ℝ`;
the internal ground-discretization arrays are modelled as `List ℝ`.
Division follows Lean's total-division convention (`x / 0 = 0`); for the
claims about division-by-zero safety a separate, explicitly checked
(`Option`-valued) variant of each affected function is given, in which
every division of the source demands a nonzero divisor.
-/

open Real

noncomputable section

/-- Constant `EPS = 1e-3`, the near-flat-tilt tolerance of the module. -/
def EPS : ℝ := 1 / 1000

/-- Constant `MAXROWS = 15`, the fallback row-count multiplier for flat tilt. -/
def MAXROWS : ℝ := 15

/-- numpy's four-quadrant arctangent `np.arctan2(y, x)`. -/
def arctan2 (y x : ℝ) : ℝ :=
  if 0 < x then arctan (y / x)
  else if x < 0 then
    (if 0 ≤ y then arctan (y / x) + π else arctan (y / x) - π)
  else
    (if 0 < y then π / 2 else if y < 0 then -(π / 2) else 0)

/-- Source `solar_projection`: solar projection on the plane perpendicular to rows. -/
def solar_projection (solar_zenith solar_azimuth system_azimuth : ℝ) : ℝ × ℝ :=
  let rotation := solar_azimuth - system_azimuth
  let x1 := Real.cos rotation * Real.sin solar_zenith
  let x2 := Real.cos solar_zenith
  (arctan2 x1 x2, x1 / x2)

/-- Source `solar_projection_tangent`: tangent of the projected solar angle. -/
def solar_projection_tangent (solar_zenith solar_azimuth system_azimuth : ℝ) : ℝ :=
  let rotation := solar_azimuth - system_azimuth
  Real.cos rotation * Real.tan solar_zenith

/-- Source `unshaded_ground_fraction`: fraction of the ground receiving direct beam. -/
def unshaded_ground_fraction (gcr tilt tan_phi : ℝ) : ℝ :=
  1 - min 1 (gcr * |Real.cos tilt + Real.sin tilt * tan_phi|)

/-- Source `_gcr_prime`: ground coverage ratio extended by the height of the
module lower edge above the ground. -/
def gcr_prime (gcr height tilt pitch : ℝ) : ℝ :=
  gcr + height / Real.sin tilt / pitch

/-- Source `ground_sky_angles`: angles from a ground point to the tops of the next
and previous rows; `(0, 0)` when the tilt is within `EPS` of 0 or π. -/
def ground_sky_angles (f_z gcr height tilt pitch : ℝ) : ℝ × ℝ :=
  if tilt < EPS ∨ π - EPS < tilt then (0, 0)
  else
    let gp := gcr_prime gcr height tilt pitch
    let tilt_prime := π - tilt
    let psi_0 := arctan2 (Real.sin tilt_prime) (f_z / gp + Real.cos tilt_prime)
    let psi_1 := arctan2 (Real.sin tilt) ((1 - f_z) / gp + Real.cos tilt)
    (psi_0, psi_1)

/-- Source `ground_sky_angles_prev`: angles from a ground point to the top and
bottom of the previous row beyond the current row.  The source computes
`gcr_prime` before testing the near-flat branch, and the branch returns
its own parameterization. -/
def ground_sky_angles_prev (f_z gcr height tilt pitch : ℝ) : ℝ × ℝ :=
  let gp := gcr_prime gcr height tilt pitch
  let tilt_prime := π - tilt
  let z := f_z * pitch
  if tilt < EPS ∨ π - EPS < tilt then
    (arctan2 (gcr * Real.sin tilt_prime + height / pitch)
       ((1 + f_z) + gcr * Real.cos tilt_prime),
     arctan2 height (-z))
  else
    (arctan2 (Real.sin tilt_prime) ((1 + f_z) / gp + Real.cos tilt_prime),
     arctan2 height (height / Real.tan tilt - z))

/-- Source `sky_angle_tangent`: tangent of the angle from the shade line to the
top of the next row. -/
def sky_angle_tangent (gcr tilt f_x : ℝ) : ℝ :=
  (1 - f_x) * Real.sin tilt / (1 / gcr - (1 - f_x) * Real.cos tilt)

/-- Source `sky_angle`: angle (and tangent) from the shade line to the top of the
next row. -/
def sky_angle (gcr tilt f_x : ℝ) : ℝ × ℝ :=
  let f_y := 1 - f_x
  let x1 := f_y * Real.sin tilt
  let x2 := 1 / gcr - f_y * Real.cos tilt
  (arctan2 x1 x2, x1 / x2)

/-- Source `sky_angle_0_tangent`: the sky-angle tangent at `f_x = 0`. -/
def sky_angle_0_tangent (gcr tilt : ℝ) : ℝ :=
  sky_angle_tangent gcr tilt 0

/-- Source `f_z0_limit`: ground-fraction limit beyond which sky is visible
between previous rows; `MAXROWS * height / pitch` in the near-flat case. -/
def f_z0_limit (gcr height tilt pitch : ℝ) : ℝ :=
  if tilt < EPS ∨ π - EPS < tilt then MAXROWS * height / pitch
  else height / pitch * (1 / Real.tan tilt + 1 / sky_angle_0_tangent gcr tilt)

/-- Source `ground_sky_angles_next`: angles from a ground point to the bottom and
top of the next row beyond the current row.  The source's near-flat
`if`-block computes a special-case parameterization but lacks a `return`,
so its assignments are dead: the general formulas below unconditionally
overwrite `psi_0` and `psi_1`. -/
def ground_sky_angles_next (f_z gcr height tilt pitch : ℝ) : ℝ × ℝ :=
  let gp := gcr_prime gcr height tilt pitch
  let tilt_prime := π - tilt
  let fzprime := 1 - f_z
  let zprime := fzprime * pitch
  (arctan2 height (height / Real.tan tilt_prime - zprime),
   arctan2 (Real.sin tilt) ((1 + fzprime) / gp + Real.cos tilt))

/-- The near-flat special-case parameterization that the source's
`ground_sky_angles_next` computes in its `if tilt < EPS` block (and which
the spec says is returned there): `psi_0 = atan2(height, -zprime)` and
`psi_1 = atan2(gcr*sin(tilt) + height/pitch, (1 + fzprime) + gcr*cos(tilt))`. -/
def ground_sky_angles_next_flat (f_z gcr height tilt pitch : ℝ) : ℝ × ℝ :=
  let fzprime := 1 - f_z
  let zprime := fzprime * pitch
  (arctan2 height (-zprime),
   arctan2 (gcr * Real.sin tilt + height / pitch)
     ((1 + fzprime) + gcr * Real.cos tilt))

/-- Source `f_z1_limit`: ground-fraction limit beyond which sky is visible
between next rows; `MAXROWS * height / pitch` in the near-flat case. -/
def f_z1_limit (gcr height tilt pitch : ℝ) : ℝ :=
  if tilt < EPS ∨ π - EPS < tilt then MAXROWS * height / pitch
  else height / pitch * (1 / sky_angle_0_tangent gcr (π - tilt) - 1 / Real.tan tilt)

/-- Source `calc_fz_sky`: two-angle sky view factor of a ground point. -/
def calc_fz_sky (psi_0 psi_1 : ℝ) : ℝ :=
  (Real.cos psi_0 + Real.cos psi_1) / 2

/-- Model of `np.linspace(a, b, n)`: `n` evenly spaced samples from `a` to `b`. -/
def linspace (a b : ℝ) (n : ℕ) : List ℝ :=
  (List.range n).map fun i : ℕ => a + (b - a) * (i : ℝ) / ((n : ℝ) - 1)

/-- Core of `np.interp` over an ascending list of sample pairs:
clamps to the end values outside the sampled range and interpolates
linearly inside it. -/
def interpP (x : ℝ) : List (ℝ × ℝ) → ℝ
  | [] => 0
  | [(_, y0)] => y0
  | (x0, y0) :: (x1, y1) :: rest =>
    if x ≤ x0 then y0
    else if x ≤ x1 then y0 + (y1 - y0) * (x - x0) / (x1 - x0)
    else interpP x ((x1, y1) :: rest)

/-- Model of `np.interp(x, xp, fp)`: one-dimensional linear interpolation. -/
def interp (x : ℝ) (xp fp : List ℝ) : ℝ :=
  interpP x (xp.zip fp)

/-- Number of iterations of the accumulation loop
`while limit - row > 0: row += 1.0` of `ground_sky_diffuse_view_factor`:
the ceiling of `limit` (zero when `limit ≤ 0`). -/
def loopCount (limit : ℝ) : ℕ := ⌈limit⌉₊

/-- Source `ground_sky_diffuse_view_factor`: ground-to-sky view factor profile.
An oversampled grid of `3 * npoints` ground fractions covers
`[0 or 1 - fz1_limit, 1 or fz0_limit]`; at each grid point the view factor
is the current-row term plus one shifted-and-interpolated term per visible
additional row ahead and behind (the two `while` accumulation loops of the
source, which execute `loopCount` times each); the summed profile is then
interpolated back onto `npoints` uniform points spanning `[0, 1]`. -/
def ground_sky_diffuse_view_factor (gcr height tilt pitch : ℝ) (npoints : ℕ) :
    List ℝ × List ℝ :=
  let fz0l := f_z0_limit gcr height tilt pitch
  let fz1l := f_z1_limit gcr height tilt pitch
  let fz := linspace (if 0 < 1 - fz1l then 0 else 1 - fz1l)
    (if fz0l < 1 then 1 else fz0l) (3 * npoints)
  let fz_sky_next := fz.map fun w =>
    let q := ground_sky_angles_prev w gcr height tilt pitch
    calc_fz_sky q.1 q.2
  let fz_sky_prev := fz.map fun w =>
    let q := ground_sky_angles_next w gcr height tilt pitch
    calc_fz_sky q.1 q.2
  let fz_sky := fz.map fun z =>
    (let q := ground_sky_angles z gcr height tilt pitch
     calc_fz_sky q.1 q.2)
    + ∑ k ∈ Finset.range (loopCount fz0l), interp (z + (k : ℝ)) fz fz_sky_next
    + ∑ k ∈ Finset.range (loopCount fz1l), interp (z - (k : ℝ)) fz fz_sky_prev
  let fz_row := linspace 0 1 npoints
  (fz_row, fz_row.map fun z => interp z fz fz_sky)

/-- The oversampled ground grid of `ground_sky_diffuse_view_factor`, written
as the spec describes it: `3 * npoints` points spanning
`[min(0, 1 - fz1_limit), max(1, fz0_limit)]`. -/
def gsdvf_grid (gcr height tilt pitch : ℝ) (npoints : ℕ) : List ℝ :=
  linspace (min 0 (1 - f_z1_limit gcr height tilt pitch))
    (max 1 (f_z0_limit gcr height tilt pitch)) (3 * npoints)

/-- The summed (current row plus all visible neighbor rows) view factor of
`ground_sky_diffuse_view_factor` at one point of the oversampled grid. -/
def gsdvf_point (gcr height tilt pitch : ℝ) (npoints : ℕ) (z : ℝ) : ℝ :=
  let fz0l := f_z0_limit gcr height tilt pitch
  let fz1l := f_z1_limit gcr height tilt pitch
  let fz := gsdvf_grid gcr height tilt pitch npoints
  let fz_sky_next := fz.map fun w =>
    let q := ground_sky_angles_prev w gcr height tilt pitch
    calc_fz_sky q.1 q.2
  let fz_sky_prev := fz.map fun w =>
    let q := ground_sky_angles_next w gcr height tilt pitch
    calc_fz_sky q.1 q.2
  (let q := ground_sky_angles z gcr height tilt pitch
   calc_fz_sky q.1 q.2)
  + ∑ k ∈ Finset.range (loopCount fz0l), interp (z + (k : ℝ)) fz fz_sky_next
  + ∑ k ∈ Finset.range (loopCount fz1l), interp (z - (k : ℝ)) fz fz_sky_prev

/-- Core of `np.trapz` over a list of `(x, y)` sample pairs. -/
def trapzP : List (ℝ × ℝ) → ℝ
  | (x0, y0) :: (x1, y1) :: rest =>
    (x1 - x0) * (y0 + y1) / 2 + trapzP ((x1, y1) :: rest)
  | _ => 0

/-- Model of `np.trapz(y, x)`: trapezoidal integration of samples `y` over grid `x`. -/
def trapz (y x : List ℝ) : ℝ := trapzP (x.zip y)

/-- Source `vf_ground_sky`: row-averaged ground-to-sky view factor (trapezoidal
integral of the profile) together with the profile itself. -/
def vf_ground_sky (gcr height tilt pitch : ℝ) (npoints : ℕ) : ℝ × List ℝ :=
  let r := ground_sky_diffuse_view_factor gcr height tilt pitch npoints
  (trapz r.2 r.1, r.2)

/-- Source `diffuse_fraction`: `dhi / ghi`.  A `ghi` of zero makes the float
quotient non-finite (`inf`/`nan`); that is the `none` case here. -/
def diffuse_fraction (ghi dhi : ℝ) : Option ℝ :=
  if ghi = 0 then none else some (dhi / ghi)

/-- Source `poa_ground_sky`: ground-reflected POA reweighted by the illuminated
fraction and the ground-to-sky view factor; a non-finite diffuse fraction
is masked to 0 (`np.where(np.isfinite(df), df, 0.0)`). -/
def poa_ground_sky (poa_ground f_gnd_beam : ℝ) (df : Option ℝ)
    (vf_gnd_sky : ℝ) : ℝ :=
  let d := df.getD 0
  poa_ground * (f_gnd_beam * (1 - d) + d * vf_gnd_sky)

/-- Source `shade_line`: fraction of the module shaded from the bottom,
clamped into `[0, 1]`. -/
def shade_line (gcr tilt tan_phi : ℝ) : ℝ :=
  let f_x := 1 - 1 / gcr / (Real.cos tilt + Real.sin tilt * tan_phi)
  max 0 (min f_x 1)

/-- Source `f_sky_diffuse_pv`: averaged sky view factors of the shaded and
unshaded module sections. -/
def f_sky_diffuse_pv (tilt tan_psi_top tan_psi_top_0 : ℝ) : ℝ × ℝ :=
  let psi_top := arctan tan_psi_top
  let psi_top_0 := arctan tan_psi_top_0
  ((1 + (Real.cos (psi_top + tilt) + Real.cos (psi_top_0 + tilt)) / 2) /
      (1 + Real.cos tilt),
   (1 + (1 + Real.cos (psi_top + tilt)) / (1 + Real.cos tilt)) / 2)

/-- Source `poa_sky_diffuse_pv`: sky-diffuse POA weighted over the shaded and
unshaded module sections. -/
def poa_sky_diffuse_pv (poa_sky_diffuse f_x f_sky_pv_shade
    f_sky_pv_noshade : ℝ) : ℝ :=
  poa_sky_diffuse * (f_x * f_sky_pv_shade + (1 - f_x) * f_sky_pv_noshade)

/-- Source `ground_angle`: angle (and tangent) from the shade line to the bottom
of the adjacent row. -/
def ground_angle (gcr tilt f_x : ℝ) : ℝ × ℝ :=
  let x1 := f_x * Real.sin tilt
  let x2 := f_x * Real.cos tilt + 1 / gcr
  (arctan2 x1 x2, x1 / x2)

/-- Source `ground_angle_tangent`: tangent of the angle from the shade line to the
bottom of the adjacent row. -/
def ground_angle_tangent (gcr tilt f_x : ℝ) : ℝ :=
  f_x * Real.sin tilt / (f_x * Real.cos tilt + 1 / gcr)

/-- Source `ground_angle_1_tangent`: the ground-angle tangent at `f_x = 1`. -/
def ground_angle_1_tangent (gcr tilt : ℝ) : ℝ :=
  ground_angle_tangent gcr tilt 1

/-- Source `f_ground_pv`: averaged ground view factors of the shaded and unshaded
module sections. -/
def f_ground_pv (tilt tan_psi_bottom tan_psi_bottom_1 : ℝ) : ℝ × ℝ :=
  let psi_bottom := arctan tan_psi_bottom
  let psi_bottom_1 := arctan tan_psi_bottom_1
  ((1 + (1 - Real.cos (tilt - psi_bottom)) / (1 - Real.cos tilt)) / 2,
   (1 - (Real.cos (tilt - psi_bottom) + Real.cos (tilt - psi_bottom_1)) / 2) /
     (1 - Real.cos tilt))

/-- Source `poa_ground_pv`: ground-diffuse POA weighted over the shaded and
unshaded module sections. -/
def poa_ground_pv (poa_gnd_sky f_x f_gnd_pv_shade f_gnd_pv_noshade : ℝ) : ℝ :=
  poa_gnd_sky * (f_x * f_gnd_pv_shade + (1 - f_x) * f_gnd_pv_noshade)

/-- Source `poa_diffuse_pv`: diffuse POA from sky and ground. -/
def poa_diffuse_pv (poa_gnd_pv poa_sky_pv : ℝ) : ℝ := poa_gnd_pv + poa_sky_pv

/-- Source `poa_direct_pv`: direct POA on the unshaded module fraction. -/
def poa_direct_pv (poa_direct iam f_x : ℝ) : ℝ := poa_direct * iam * (1 - f_x)

/-- Source `poa_global_pv`: global POA on one surface. -/
def poa_global_pv (poa_dir_pv poa_dif_pv : ℝ) : ℝ := poa_dir_pv + poa_dif_pv

/-- Source `poa_global_bifacial`: front plus derated back contribution. -/
def poa_global_bifacial (poa_global_front poa_global_back bifaciality
    shade_factor transmission_factor : ℝ) : ℝ :=
  let effects := (1 + shade_factor) * (1 + transmission_factor)
  poa_global_front + poa_global_back * bifaciality * effects

/-- Python's float modulo `a % b` (`b * fract(a / b)` for positive `b`). -/
def fmod (a b : ℝ) : ℝ := a - b * (⌊a / b⌋ : ℝ)

/-- Source `_backside`: mirrored tilt and azimuth of the back surface. -/
def backside (tilt system_azimuth : ℝ) : ℝ × ℝ :=
  (π - tilt, fmod (π + system_azimuth) (2 * π))

/-- Checked division: `none` exactly when the divisor is zero. -/
def cdiv (a b : ℝ) : Option ℝ := if b = 0 then none else some (a / b)

/-- Source `_gcr_prime` with every division checked. -/
def gcr_primeC (gcr height tilt pitch : ℝ) : Option ℝ := do
  let a ← cdiv height (Real.sin tilt)
  let b ← cdiv a pitch
  pure (gcr + b)

/-- Source `ground_sky_angles` with every division checked; the near-flat branch
returns before any division is performed. -/
def ground_sky_anglesC (f_z gcr height tilt pitch : ℝ) : Option (ℝ × ℝ) :=
  if tilt < EPS ∨ π - EPS < tilt then some (0, 0)
  else do
    let gp ← gcr_primeC gcr height tilt pitch
    let a0 ← cdiv f_z gp
    let a1 ← cdiv (1 - f_z) gp
    pure (arctan2 (Real.sin (π - tilt)) (a0 + Real.cos (π - tilt)),
      arctan2 (Real.sin tilt) (a1 + Real.cos tilt))

/-- Source `ground_sky_angles_prev` with every division checked; as in the source,
`gcr_prime` is evaluated before the near-flat branch is tested. -/
def ground_sky_angles_prevC (f_z gcr height tilt pitch : ℝ) :
    Option (ℝ × ℝ) := do
  let gp ← gcr_primeC gcr height tilt pitch
  let z := f_z * pitch
  if tilt < EPS ∨ π - EPS < tilt then do
    let hp ← cdiv height pitch
    pure (arctan2 (gcr * Real.sin (π - tilt) + hp)
        ((1 + f_z) + gcr * Real.cos (π - tilt)),
      arctan2 height (-z))
  else do
    let a ← cdiv (1 + f_z) gp
    let t ← cdiv height (Real.tan tilt)
    pure (arctan2 (Real.sin (π - tilt)) (a + Real.cos (π - tilt)),
      arctan2 height (t - z))

/-- Source `ground_sky_angles_next` with every division checked; the near-flat
block's divisions are evaluated but its results are discarded (the source
block lacks a `return`), after which the general formulas are evaluated
unconditionally. -/
def ground_sky_angles_nextC (f_z gcr height tilt pitch : ℝ) :
    Option (ℝ × ℝ) := do
  let gp ← gcr_primeC gcr height tilt pitch
  let zprime := (1 - f_z) * pitch
  let _dead ← (if tilt < EPS ∨ π - EPS < tilt then do
      let hp ← cdiv height pitch
      pure (arctan2 height (-zprime),
        arctan2 (gcr * Real.sin tilt + hp)
          ((1 + (1 - f_z)) + gcr * Real.cos tilt))
    else pure ((0 : ℝ), (0 : ℝ)))
  let t ← cdiv height (Real.tan (π - tilt))
  let a ← cdiv (1 + (1 - f_z)) gp
  pure (arctan2 height (t - zprime),
    arctan2 (Real.sin tilt) (a + Real.cos tilt))

/-- Source `_PVSurface`: per-surface result record built from the full
(`all_output=True`) output of module-level `get_irradiance`. -/
structure PVSurface where
  poa_global_pv : ℝ
  poa_direct_pv : ℝ
  poa_diffuse_pv : ℝ
  poa_ground_pv : ℝ
  poa_sky_diffuse_pv : ℝ
  tan_phi : ℝ
  f_gnd_beam : ℝ
  df : Option ℝ
  poa_ground_sky : ℝ
  f_x : ℝ
  tan_psi_top : ℝ
  tan_psi_top_0 : ℝ
  f_sky_pv_shade : ℝ
  f_sky_pv_noshade : ℝ
  tan_psi_bottom : ℝ
  tan_psi_bottom_1 : ℝ
  f_gnd_pv_shade : ℝ
  f_gnd_pv_noshade : ℝ

/-- Module-level `get_irradiance` with `all_output=True`, elementwise. -/
def get_irradiance_all (solar_zenith solar_azimuth system_azimuth gcr height
    tilt pitch ghi dhi poa_ground poa_sky_diffuse poa_direct iam : ℝ)
    (npoints : ℕ) : PVSurface :=
  let tan_phi := solar_projection_tangent solar_zenith solar_azimuth
    system_azimuth
  let f_gnd_beam := unshaded_ground_fraction gcr tilt tan_phi
  let df := diffuse_fraction ghi dhi
  let vf_gnd_sky := (vf_ground_sky gcr height tilt pitch npoints).1
  let poa_gnd_sky := poa_ground_sky poa_ground f_gnd_beam df vf_gnd_sky
  let f_x := shade_line gcr tilt tan_phi
  let tan_psi_top := sky_angle_tangent gcr tilt f_x
  let tan_psi_top_0 := sky_angle_0_tangent gcr tilt
  let fsky := f_sky_diffuse_pv tilt tan_psi_top tan_psi_top_0
  let poa_sky_pv := poa_sky_diffuse_pv poa_sky_diffuse f_x fsky.1 fsky.2
  let tan_psi_bottom := ground_angle_tangent gcr tilt f_x
  let tan_psi_bottom_1 := ground_angle_1_tangent gcr tilt
  let fgnd := f_ground_pv tilt tan_psi_bottom tan_psi_bottom_1
  let poa_gnd_pv := poa_ground_pv poa_gnd_sky f_x fgnd.1 fgnd.2
  let poa_dif_pv := poa_diffuse_pv poa_gnd_pv poa_sky_pv
  let poa_dir_pv := poa_direct_pv poa_direct iam f_x
  let poa_glo_pv := poa_global_pv poa_dir_pv poa_dif_pv
  { poa_global_pv := poa_glo_pv
    poa_direct_pv := poa_dir_pv
    poa_diffuse_pv := poa_dif_pv
    poa_ground_pv := poa_gnd_pv
    poa_sky_diffuse_pv := poa_sky_pv
    tan_phi := tan_phi
    f_gnd_beam := f_gnd_beam
    df := df
    poa_ground_sky := poa_gnd_sky
    f_x := f_x
    tan_psi_top := tan_psi_top
    tan_psi_top_0 := tan_psi_top_0
    f_sky_pv_shade := fsky.1
    f_sky_pv_noshade := fsky.2
    tan_psi_bottom := tan_psi_bottom
    tan_psi_bottom_1 := tan_psi_bottom_1
    f_gnd_pv_shade := fgnd.1
    f_gnd_pv_noshade := fgnd.2 }

/-- State of the `InfiniteSheds` orchestrator object; attributes that
Python initializes to `None` are `Option`-valued. -/
structure InfiniteShedsState where
  system_azimuth : ℝ
  gcr : ℝ
  height : ℝ
  tilt : ℝ
  pitch : ℝ
  npoints : ℕ
  is_bifacial : Bool
  bifaciality : ℝ
  shade_factor : ℝ
  transmission_factor : ℝ
  backside_tilt : ℝ
  backside_sysaz : ℝ
  tan_phi : Option ℝ
  f_gnd_beam : Option ℝ
  df : Option (Option ℝ)
  front_side : Option PVSurface
  back_side : Option PVSurface
  poa_global_bifacial : Option ℝ

/-- Source `InfiniteSheds.__init__`: the stored bifaciality is forced to `0.0`
when `is_bifacial` is false. -/
def infiniteShedsInit (system_azimuth gcr height tilt pitch : ℝ)
    (npoints : ℕ) (is_bifacial : Bool)
    (bifaciality shade_factor transmission_factor : ℝ) :
    InfiniteShedsState :=
  { system_azimuth := system_azimuth
    gcr := gcr
    height := height
    tilt := tilt
    pitch := pitch
    npoints := npoints
    is_bifacial := is_bifacial
    bifaciality := if is_bifacial then bifaciality else 0
    shade_factor := shade_factor
    transmission_factor := transmission_factor
    backside_tilt := (backside tilt system_azimuth).1
    backside_sysaz := (backside tilt system_azimuth).2
    tan_phi := none
    f_gnd_beam := none
    df := none
    front_side := none
    back_side := none
    poa_global_bifacial := none }

/-- Source `InfiniteSheds.get_irradiance`: evaluates the front side, and the back
side plus the bifacial combination only when the stored bifaciality is
positive; returns the updated state and the returned series value. -/
def infiniteShedsGetIrradiance (s : InfiniteShedsState)
    (solar_zenith solar_azimuth ghi dhi poa_ground poa_sky_diffuse
      poa_direct iam : ℝ) : InfiniteShedsState × ℝ :=
  let front := get_irradiance_all solar_zenith solar_azimuth s.system_azimuth
    s.gcr s.height s.tilt s.pitch ghi dhi poa_ground poa_sky_diffuse
    poa_direct iam s.npoints
  let s1 := { s with
    front_side := some front
    tan_phi := some front.tan_phi
    f_gnd_beam := some front.f_gnd_beam
    df := some front.df }
  if 0 < s.bifaciality then
    let back := get_irradiance_all solar_zenith solar_azimuth s.backside_sysaz
      s.gcr s.height s.backside_tilt s.pitch ghi dhi poa_ground
      poa_sky_diffuse poa_direct iam s.npoints
    let pgb := poa_global_bifacial front.poa_global_pv back.poa_global_pv
      s.bifaciality s.shade_factor s.transmission_factor
    ({ s1 with back_side := some back, poa_global_bifacial := some pgb }, pgb)
  else
    (s1, front.poa_global_pv)

end

/-! ## Helper lemmas -/

lemma fmod_eq_sub_int (a b : ℝ) : ∃ k : ℤ, fmod a b = a - b * (k : ℝ) :=
  ⟨⌊a / b⌋, rfl⟩

lemma interpP_head (x x0 y0 : ℝ) (p : ℝ × ℝ) (rest : List (ℝ × ℝ))
    (h : x ≤ x0) : interpP x ((x0, y0) :: p :: rest) = y0 := by
  obtain ⟨x1, y1⟩ := p
  simp [interpP, h]

lemma loopCount_spec (L : ℝ) :
    (∀ k : ℕ, k < loopCount L → 0 < L - (k : ℝ)) ∧
    ¬(0 < L - (loopCount L : ℝ)) ∧
    (∀ n : ℕ, (∀ k : ℕ, k < n → 0 < L - (k : ℝ)) → ¬(0 < L - (n : ℝ)) →
      n = loopCount L) ∧
    (L ≤ 0 → loopCount L = 0) := by
  refine ⟨?_, ?_, ?_, ?_⟩
  · intro k hk
    have h := Nat.lt_ceil.mp hk
    linarith
  · have h := Nat.le_ceil L
    simp only [loopCount]
    linarith
  · intro n h1 h2
    push_neg at h2
    have hup : loopCount L ≤ n := Nat.ceil_le.mpr (by linarith)
    have hdown : n ≤ loopCount L := by
      by_contra hc
      push_neg at hc
      have h3 := h1 (loopCount L) hc
      have h4 := Nat.le_ceil L
      simp only [loopCount] at h3
      linarith
    omega
  · intro h
    exact Nat.ceil_eq_zero.mpr h

/-! ## Claims -/

/-- C4: the two neighbor-row accumulation loops of
`ground_sky_diffuse_view_factor` terminate: the loop guard
`limit - row > 0` holds at every one of the first `loopCount limit`
iterations and fails immediately afterwards, `loopCount limit` is the
unique such exit point (the ceiling of the limit, and zero when the limit
is nonpositive), and in the near-flat ε branch the limit equals the finite
cap `MAXROWS * height / pitch`, so termination holds there as well. -/
theorem C4_loop_termination (gcr height tilt pitch L : ℝ)
    (hL : L = f_z0_limit gcr height tilt pitch ∨
          L = f_z1_limit gcr height tilt pitch) :
    (∀ k : ℕ, k < loopCount L → 0 < L - (k : ℝ)) ∧
    ¬(0 < L - (loopCount L : ℝ)) ∧
    (∀ n : ℕ, (∀ k : ℕ, k < n → 0 < L - (k : ℝ)) → ¬(0 < L - (n : ℝ)) →
      n = loopCount L) ∧
    (L ≤ 0 → loopCount L = 0) ∧
    (tilt < EPS ∨ π - EPS < tilt → L = MAXROWS * height / pitch) := by
  obtain ⟨h1, h2, h3, h4⟩ := loopCount_spec L
  refine ⟨h1, h2, h3, h4, ?_⟩
  intro hflat
  rcases hL with h | h <;> rw [h]
  · rw [f_z0_limit, if_pos hflat]
  · rw [f_z1_limit, if_pos hflat]

/-- C4 witness: the forward loop of the flat-tilt configuration
`gcr = 1, height = 1, tilt = 0, pitch = 1`. -/
theorem C4_loop_termination_witness :
    (∀ k : ℕ, k < loopCount (f_z0_limit 1 1 0 1) →
      0 < f_z0_limit 1 1 0 1 - (k : ℝ)) ∧
    ¬(0 < f_z0_limit 1 1 0 1 - (loopCount (f_z0_limit 1 1 0 1) : ℝ)) ∧
    (∀ n : ℕ, (∀ k : ℕ, k < n → 0 < f_z0_limit 1 1 0 1 - (k : ℝ)) →
      ¬(0 < f_z0_limit 1 1 0 1 - (n : ℝ)) → n = loopCount (f_z0_limit 1 1 0 1)) ∧
    (f_z0_limit 1 1 0 1 ≤ 0 → loopCount (f_z0_limit 1 1 0 1) = 0) ∧
    ((0 : ℝ) < EPS ∨ π - EPS < 0 → f_z0_limit 1 1 0 1 = MAXROWS * 1 / 1) :=
  C4_loop_termination 1 1 0 1 (f_z0_limit 1 1 0 1) (Or.inl rfl)

/-- C5, counterexample to the claim as stated: at the valid configuration
`gcr = 1, tilt = π` the unshaded ground fraction is `0`, while
`1 - gcr * cos(tilt) = 2`, so the claimed exact identity fails for tilts
beyond π/2 (where `cos` is negative and the absolute value matters). -/
theorem C5_counterexample :
    unshaded_ground_fraction 1 π 0 = 0 ∧ 1 - 1 * Real.cos π = 2 := by
  constructor
  · rw [unshaded_ground_fraction]
    rw [Real.cos_pi, Real.sin_pi]
    norm_num
  · rw [Real.cos_pi]
    norm_num

/-- C5 as amended: with the sun at zenith the projected solar tangent is
exactly 0 for every azimuth pair, and for tilts in `[0, π/2]` (so that
`cos tilt ≥ 0`) with `gcr ∈ (0, 1]` the unshaded ground fraction equals
`1 - gcr * cos tilt` exactly. -/
theorem C5_amended (solar_azimuth system_azimuth gcr tilt : ℝ)
    (hg0 : 0 < gcr) (hg1 : gcr ≤ 1) (ht0 : 0 ≤ tilt) (ht1 : tilt ≤ π / 2) :
    solar_projection_tangent 0 solar_azimuth system_azimuth = 0 ∧
    unshaded_ground_fraction gcr tilt 0 = 1 - gcr * Real.cos tilt := by
  constructor
  · simp [solar_projection_tangent, Real.tan_zero]
  · have hc0 : 0 ≤ Real.cos tilt := by
      apply Real.cos_nonneg_of_mem_Icc
      constructor
      · linarith [Real.pi_pos]
      · exact ht1
    have hle : gcr * Real.cos tilt ≤ 1 := by
      calc gcr * Real.cos tilt ≤ 1 * 1 := by
            apply mul_le_mul hg1 (Real.cos_le_one tilt) hc0 zero_le_one
        _ = 1 := by norm_num
    rw [unshaded_ground_fraction]
    rw [mul_zero, add_zero, abs_of_nonneg hc0, min_eq_right hle]

/-- C5 witness: azimuths 0/0, `gcr = 1`, `tilt = 0`. -/
theorem C5_amended_witness :
    solar_projection_tangent 0 0 0 = 0 ∧
    unshaded_ground_fraction 1 0 0 = 1 - 1 * Real.cos 0 :=
  C5_amended 0 0 1 0 (by norm_num) le_rfl le_rfl
    (by linarith [Real.pi_pos])

/-- C6: with `ghi = dhi ≠ 0` the diffuse fraction is exactly 1 and the
ground-reflected POA reduces to `poa_ground * vf_gnd_sky` exactly; a
non-finite diffuse fraction is treated as 0, giving
`poa_ground * f_gnd_beam`. -/
theorem C6_poa_ground_sky (poa_ground f_gnd_beam vf_gnd_sky ghi dhi : ℝ)
    (hg : ghi ≠ 0) (he : dhi = ghi) :
    poa_ground_sky poa_ground f_gnd_beam (diffuse_fraction ghi dhi)
        vf_gnd_sky = poa_ground * vf_gnd_sky ∧
    poa_ground_sky poa_ground f_gnd_beam none vf_gnd_sky =
      poa_ground * f_gnd_beam := by
  constructor
  · rw [diffuse_fraction, if_neg hg, he, div_self hg]
    simp only [poa_ground_sky, Option.getD_some]
    ring
  · simp only [poa_ground_sky, Option.getD_none]
    ring

/-- C6 witness: `ghi = dhi = 1`, `poa_ground = 2`, `f_gnd_beam = 3`,
`vf_gnd_sky = 5`. -/
theorem C6_poa_ground_sky_witness :
    poa_ground_sky 2 3 (diffuse_fraction 1 1) 5 = 2 * 5 ∧
    poa_ground_sky 2 3 none 5 = 2 * 3 :=
  C6_poa_ground_sky 2 3 5 1 1 (by norm_num) rfl

/-- C7: applying the backside transform twice restores the tilt exactly
and the azimuth up to an integer multiple of 2π. -/
theorem C7_backside_involution (tilt az : ℝ) :
    (backside (backside tilt az).1 (backside tilt az).2).1 = tilt ∧
    ∃ k : ℤ, (backside (backside tilt az).1 (backside tilt az).2).2 =
      az + (k : ℝ) * (2 * π) := by
  constructor
  · show π - (π - tilt) = tilt
    ring
  · obtain ⟨k1, h1⟩ := fmod_eq_sub_int (π + az) (2 * π)
    obtain ⟨k2, h2⟩ := fmod_eq_sub_int (π + fmod (π + az) (2 * π)) (2 * π)
    refine ⟨1 - k1 - k2, ?_⟩
    show fmod (π + fmod (π + az) (2 * π)) (2 * π) = _
    rw [h2, h1]
    push_cast
    ring

/-- C8: for nonnegative back-side POA and nonnegative combined
shade/transmission derate, the bifacial combination is monotonically
increasing in the bifaciality factor, and at bifaciality 0 it equals the
front-side POA exactly. -/
theorem C8_bifacial_monotone (front back b1 b2 sf tf : ℝ)
    (hb : 0 ≤ back) (he : 0 ≤ (1 + sf) * (1 + tf)) (h12 : b1 ≤ b2) :
    poa_global_bifacial front back b1 sf tf ≤
      poa_global_bifacial front back b2 sf tf ∧
    poa_global_bifacial front back 0 sf tf = front := by
  simp only [poa_global_bifacial]
  constructor
  · nlinarith [mul_nonneg (mul_nonneg hb (sub_nonneg.mpr h12)) he]
  · ring

/-- C8 witness: `front = 7`, `back = 1`, bifacialities 0 and 1, no
derates. -/
theorem C8_bifacial_monotone_witness :
    poa_global_bifacial 7 1 0 0 0 ≤ poa_global_bifacial 7 1 1 0 0 ∧
    poa_global_bifacial 7 1 0 0 0 = 7 :=
  C8_bifacial_monotone 7 1 0 1 0 0 (by norm_num) (by norm_num) (by norm_num)

/-- C10: an orchestrator constructed with `is_bifacial = False` stores
bifaciality `0.0` regardless of the `bifaciality` argument, and its
`get_irradiance` returns exactly the front-side global POA while the
`back_side` and `poa_global_bifacial` attributes stay `None`. -/
theorem C10_monofacial (system_azimuth gcr height tilt pitch : ℝ)
    (npoints : ℕ) (bifaciality shade_factor transmission_factor
      solar_zenith solar_azimuth ghi dhi poa_ground poa_sky_diffuse
      poa_direct iam : ℝ) :
    (infiniteShedsInit system_azimuth gcr height tilt pitch npoints false
        bifaciality shade_factor transmission_factor).bifaciality = 0 ∧
    (infiniteShedsGetIrradiance
        (infiniteShedsInit system_azimuth gcr height tilt pitch npoints false
          bifaciality shade_factor transmission_factor)
        solar_zenith solar_azimuth ghi dhi poa_ground poa_sky_diffuse
        poa_direct iam).2 =
      (get_irradiance_all solar_zenith solar_azimuth system_azimuth gcr
        height tilt pitch ghi dhi poa_ground poa_sky_diffuse poa_direct iam
        npoints).poa_global_pv ∧
    (infiniteShedsGetIrradiance
        (infiniteShedsInit system_azimuth gcr height tilt pitch npoints false
          bifaciality shade_factor transmission_factor)
        solar_zenith solar_azimuth ghi dhi poa_ground poa_sky_diffuse
        poa_direct iam).1.back_side = none ∧
    (infiniteShedsGetIrradiance
        (infiniteShedsInit system_azimuth gcr height tilt pitch npoints false
          bifaciality shade_factor transmission_factor)
        solar_zenith solar_azimuth ghi dhi poa_ground poa_sky_diffuse
        poa_direct iam).1.poa_global_bifacial = none := by
  refine ⟨by simp [infiniteShedsInit], ?_, ?_, ?_⟩ <;>
    simp [infiniteShedsGetIrradiance, infiniteShedsInit, lt_irrefl]

/-- C2, counterexample to the claim as stated: at `tilt = 0` (which lies
in `[0, ε)`) the division `height / sin(tilt)` inside `_gcr_prime`,
evaluated by `ground_sky_angles_prev` before its near-flat branch is
tested, has a zero divisor, so the checked evaluation fails. -/
theorem C2_counterexample :
    ground_sky_angles_prevC 0 (1 / 2) 1 0 1 = none := by
  simp [ground_sky_angles_prevC, gcr_primeC, cdiv, Real.sin_zero]

/-- C2 as amended: for every tilt strictly inside `(0, ε)` or `(π - ε, π)`
— the claimed intervals minus their endpoints 0 and π, where
`sin tilt = 0` makes the `_gcr_prime` division fail — every division
performed by `ground_sky_angles`, `ground_sky_angles_prev` and
`ground_sky_angles_next` has a nonzero divisor (and `ground_sky_angles`
is additionally division-free on the closed intervals, returning before
any division). -/
theorem C2_amended (f_z gcr height tilt pitch : ℝ)
    (hg : 0 < gcr) (hh : 0 ≤ height) (hp : 0 < pitch) :
    ((0 ≤ tilt ∧ tilt < EPS) ∨ (π - EPS < tilt ∧ tilt ≤ π) →
      (ground_sky_anglesC f_z gcr height tilt pitch).isSome) ∧
    ((0 < tilt ∧ tilt < EPS) ∨ (π - EPS < tilt ∧ tilt < π) →
      (ground_sky_angles_prevC f_z gcr height tilt pitch).isSome ∧
      (ground_sky_angles_nextC f_z gcr height tilt pitch).isSome) := by
  have hpi3 := Real.pi_gt_three
  constructor
  · intro h
    have hcond : tilt < EPS ∨ π - EPS < tilt := by
      rcases h with h | h
      · exact Or.inl h.2
      · exact Or.inr h.1
    rw [ground_sky_anglesC, if_pos hcond]
    rfl
  · intro h
    have h0 : 0 < tilt := by
      rcases h with h | h
      · exact h.1
      · have : 0 < π - EPS := by rw [EPS]; linarith
        linarith [h.1]
    have hpi : tilt < π := by
      rcases h with h | h
      · have : EPS < π := by rw [EPS]; linarith
        linarith [h.2]
      · exact h.2
    have hcond : tilt < EPS ∨ π - EPS < tilt := by
      rcases h with h | h
      · exact Or.inl h.2
      · exact Or.inr h.1
    have hsin : 0 < Real.sin tilt := Real.sin_pos_of_pos_of_lt_pi h0 hpi
    have hcos : Real.cos tilt ≠ 0 := by
      rcases h with h | h
      · have : tilt < π / 2 := by rw [EPS] at h; linarith [h.2]
        exact (Real.cos_pos_of_mem_Ioo ⟨by linarith, this⟩).ne'
      · have h1 : π / 2 < tilt := by rw [EPS] at h; linarith [h.1]
        have h2 : tilt < π + π / 2 := by linarith
        exact (Real.cos_neg_of_pi_div_two_lt_of_lt h1 h2).ne
    have htan : Real.tan tilt ≠ 0 := by
      rw [Real.tan_eq_sin_div_cos]
      exact div_ne_zero hsin.ne' hcos
    have htanp : Real.tan (π - tilt) ≠ 0 := by
      rw [Real.tan_eq_sin_div_cos, Real.sin_pi_sub, Real.cos_pi_sub]
      exact div_ne_zero hsin.ne' (neg_ne_zero.mpr hcos)
    have hgp : gcr_primeC gcr height tilt pitch =
        some (gcr + height / Real.sin tilt / pitch) := by
      simp [gcr_primeC, cdiv, hsin.ne', hp.ne']
    have hgpne : gcr + height / Real.sin tilt / pitch ≠ 0 := by
      have : 0 ≤ height / Real.sin tilt / pitch :=
        div_nonneg (div_nonneg hh hsin.le) hp.le
      positivity
    constructor
    · rw [ground_sky_angles_prevC]
      rw [hgp]
      simp [if_pos hcond, cdiv, hp.ne']
    · rw [ground_sky_angles_nextC]
      rw [hgp]
      simp [if_pos hcond, cdiv, hp.ne', htanp, hgpne]

/-- C2 witness: `tilt = 1/2000 ∈ (0, ε)`, `gcr = 1`, `height = 0`,
`pitch = 1`, `f_z = 0`. -/
theorem C2_amended_witness :
    (ground_sky_anglesC 0 1 0 (1 / 2000) 1).isSome ∧
    (ground_sky_angles_prevC 0 1 0 (1 / 2000) 1).isSome ∧
    (ground_sky_angles_nextC 0 1 0 (1 / 2000) 1).isSome := by
  have h := C2_amended 0 1 0 (1 / 2000) 1 (by norm_num) le_rfl (by norm_num)
  refine ⟨h.1 (Or.inl ⟨by norm_num, by rw [EPS]; norm_num⟩), ?_⟩
  exact h.2 (Or.inl ⟨by norm_num, by rw [EPS]; norm_num⟩)

/-- C3: `ground_sky_angles_next` does not return its near-flat
special-case parameterization — the source's `if`-block lacks a `return`,
so the general `gcr_prime`-based formulas overwrite it.  At the valid
flat input `f_z = 0, gcr = 1/2, height = 1, tilt = 0, pitch = 1` the
returned pair differs from the special-case pair in its second
component. -/
theorem C3_next_missing_return :
    ground_sky_angles_next 0 (1 / 2) 1 0 1 ≠
      ground_sky_angles_next_flat 0 (1 / 2) 1 0 1 := by
  have ha : (ground_sky_angles_next 0 (1 / 2) 1 0 1).2 = 0 := by
    rw [ground_sky_angles_next]
    show arctan2 (Real.sin 0)
      ((1 + (1 - 0)) / gcr_prime (1 / 2) 1 0 1 + Real.cos 0) = 0
    rw [gcr_prime, Real.sin_zero, Real.cos_zero]
    norm_num
    rw [arctan2, if_pos (by norm_num : (0 : ℝ) < 5)]
    rw [zero_div, Real.arctan_zero]
  have hb : (ground_sky_angles_next_flat 0 (1 / 2) 1 0 1).2 =
      Real.arctan (2 / 5) := by
    rw [ground_sky_angles_next_flat]
    show arctan2 (1 / 2 * Real.sin 0 + 1 / 1)
      ((1 + (1 - 0)) + 1 / 2 * Real.cos 0) = Real.arctan (2 / 5)
    rw [Real.sin_zero, Real.cos_zero]
    rw [arctan2, if_pos (by norm_num : (0 : ℝ) < (1 + (1 - 0)) + 1 / 2 * 1)]
    norm_num
  intro hEq
  have h2 : (ground_sky_angles_next 0 (1 / 2) 1 0 1).2 =
      (ground_sky_angles_next_flat 0 (1 / 2) 1 0 1).2 := by rw [hEq]
  rw [ha, hb] at h2
  have : (2 : ℝ) / 5 = 0 := Real.arctan_eq_zero_iff.mp h2.symm
  norm_num at this

/-- C1, counterexample to the claim as stated: at the valid flat
configuration `gcr = 1/2, height = 1/15, tilt = 0, pitch = 1` (with
`npoints = 2`) the first point of the ground-to-sky view factor profile
exceeds 1 — the near-flat branch makes the current-row term equal to 1 and
the neighbor-row loops add strictly positive contributions on top. -/
theorem C1_counterexample :
    1 < ((ground_sky_diffuse_view_factor (1 / 2) (1 / 15) 0 1 2).2).headI := by
  have hf0 : f_z0_limit (1 / 2) (1 / 15) 0 1 = 1 := by
    rw [f_z0_limit, if_pos (Or.inl (show (0 : ℝ) < EPS by rw [EPS]; norm_num))]
    rw [MAXROWS]; norm_num
  have hf1 : f_z1_limit (1 / 2) (1 / 15) 0 1 = 1 := by
    rw [f_z1_limit, if_pos (Or.inl (show (0 : ℝ) < EPS by rw [EPS]; norm_num))]
    rw [MAXROWS]; norm_num
  have hlc : loopCount 1 = 1 := by rw [loopCount]; exact Nat.ceil_one
  have hlin6 : linspace 0 1 6 = [0, 1 / 5, 2 / 5, 3 / 5, 4 / 5, 1] := by
    rw [linspace, show List.range 6 = [0, 1, 2, 3, 4, 5] from rfl]
    norm_num [List.map]
  have hlin2 : linspace 0 1 2 = [0, 1] := by
    rw [linspace, show List.range 2 = [0, 1] from rfl]
    norm_num [List.map]
  have hA : ground_sky_angles 0 (1 / 2) (1 / 15) 0 1 = (0, 0) := by
    rw [ground_sky_angles,
      if_pos (Or.inl (show (0 : ℝ) < EPS by rw [EPS]; norm_num))]
  have hB : ground_sky_angles_prev 0 (1 / 2) (1 / 15) 0 1 =
      (Real.arctan (2 / 15), π / 2) := by
    simp only [ground_sky_angles_prev]
    rw [if_pos (Or.inl (show (0 : ℝ) < EPS by rw [EPS]; norm_num))]
    rw [Prod.mk.injEq]
    constructor
    · rw [sub_zero, Real.sin_pi, Real.cos_pi]
      norm_num
      rw [arctan2, if_pos (by norm_num : (0 : ℝ) < 1 / 2)]
      norm_num
    · norm_num
      rw [arctan2]
      norm_num
  have hC : ground_sky_angles_next 0 (1 / 2) (1 / 15) 0 1 =
      (Real.arctan (-(1 / 15)) + π, 0) := by
    simp only [ground_sky_angles_next]
    rw [Prod.mk.injEq]
    constructor
    · rw [sub_zero, Real.tan_pi]
      norm_num
      rw [arctan2, if_neg (by norm_num : ¬(0 : ℝ) < -1),
        if_pos (by norm_num : (-1 : ℝ) < 0),
        if_pos (by norm_num : (0 : ℝ) ≤ 1 / 15)]
      norm_num
    · rw [gcr_prime, Real.sin_zero, Real.cos_zero]
      norm_num
      rw [arctan2, if_pos (by norm_num : (0 : ℝ) < 5)]
      rw [zero_div, Real.arctan_zero]
  simp only [ground_sky_diffuse_view_factor]
  rw [show (if 0 < 1 - f_z1_limit (1 / 2) (1 / 15) 0 1 then (0 : ℝ)
      else 1 - f_z1_limit (1 / 2) (1 / 15) 0 1) = 0 by rw [hf1]; norm_num]
  rw [show (if f_z0_limit (1 / 2) (1 / 15) 0 1 < 1 then (1 : ℝ)
      else f_z0_limit (1 / 2) (1 / 15) 0 1) = 1 by rw [hf0]; norm_num]
  rw [hf0, hf1, hlc, show (3 * 2 : ℕ) = 6 from rfl, hlin6, hlin2]
  simp only [List.map_cons, List.map_nil, List.headI_cons]
  simp only [interp, List.zip_cons_cons, List.zip_nil_right]
  rw [interpP_head _ _ _ _ _ le_rfl]
  rw [Finset.sum_range_one, Finset.sum_range_one]
  norm_num
  rw [interpP_head _ _ _ _ _ le_rfl, interpP_head _ _ _ _ _ le_rfl]
  rw [hA, hB, hC]
  simp only [calc_fz_sky]
  rw [Real.cos_zero, Real.cos_pi_div_two]
  have h1 : 0 < Real.cos (Real.arctan (2 / 15)) := Real.cos_arctan_pos _
  have h2 : Real.cos (Real.arctan (1 / 15)) ≤ 1 := Real.cos_le_one _
  norm_num
  linarith

/-- C1 as amended: for every valid configuration the two fraction outputs
are clamped into `[0, 1]`: `unshaded_ground_fraction` and `shade_line`
always return values in `[0, 1]`.  (The profile clause of the original
claim is dropped: the ground-to-sky view factor profile of
`ground_sky_diffuse_view_factor` can exceed 1, e.g. at `tilt = 0`.) -/
theorem C1_amended (gcr tilt tan_phi : ℝ) (hg0 : 0 < gcr) (hg1 : gcr ≤ 1)
    (ht0 : 0 ≤ tilt) (ht1 : tilt ≤ π) :
    (0 ≤ unshaded_ground_fraction gcr tilt tan_phi ∧
      unshaded_ground_fraction gcr tilt tan_phi ≤ 1) ∧
    (0 ≤ shade_line gcr tilt tan_phi ∧ shade_line gcr tilt tan_phi ≤ 1) := by
  constructor
  · rw [unshaded_ground_fraction]
    constructor
    · have h := min_le_left 1 (gcr * |Real.cos tilt + Real.sin tilt * tan_phi|)
      linarith
    · have h0 : 0 ≤ gcr * |Real.cos tilt + Real.sin tilt * tan_phi| :=
        mul_nonneg hg0.le (abs_nonneg _)
      have h := le_min zero_le_one h0
      linarith
  · simp only [shade_line]
    constructor
    · exact le_max_left 0 _
    · exact max_le zero_le_one (min_le_right _ 1)

/-- C1 witness: `gcr = 1`, `tilt = 0`, `tan_phi = 0`. -/
theorem C1_amended_witness :
    (0 ≤ unshaded_ground_fraction 1 0 0 ∧
      unshaded_ground_fraction 1 0 0 ≤ 1) ∧
    (0 ≤ shade_line 1 0 0 ∧ shade_line 1 0 0 ≤ 1) :=
  C1_amended 1 0 0 (by norm_num) le_rfl le_rfl Real.pi_nonneg

lemma start_if_eq_min (x : ℝ) : (if 0 < x then (0 : ℝ) else x) = min 0 x := by
  split_ifs with h
  · exact (min_eq_left h.le).symm
  · push_neg at h
    exact (min_eq_right h).symm

lemma end_if_eq_max (x : ℝ) : (if x < 1 then (1 : ℝ) else x) = max 1 x := by
  split_ifs with h
  · exact (max_eq_left h.le).symm
  · push_neg at h
    exact (max_eq_right h).symm

lemma linspace_length (a b : ℝ) (n : ℕ) : (linspace a b n).length = n := by
  rw [linspace, List.length_map, List.length_range]

lemma linspace_getD (a b : ℝ) (n i : ℕ) (h : i < n) :
    (linspace a b n).getD i 0 = a + (b - a) * (i : ℝ) / ((n : ℝ) - 1) := by
  have hl : i < (linspace a b n).length := by
    rw [linspace_length]
    exact h
  rw [List.getD_eq_getElem _ _ hl]
  simp only [linspace, List.getElem_map, List.getElem_range]

/-- C9: the oversampled internal grid of `ground_sky_diffuse_view_factor`
has exactly `3 * npoints` points spanning
`[min(0, 1 - fz1_limit), max(1, fz0_limit)]`, and the returned profile has
exactly `npoints` values, obtained by linear interpolation of the summed
view-factor profile onto the uniform `npoints`-point grid spanning exactly
`[0, 1]`. -/
theorem C9_structure (gcr height tilt pitch : ℝ) (npoints : ℕ)
    (hn : 2 ≤ npoints) :
    (gsdvf_grid gcr height tilt pitch npoints).length = 3 * npoints ∧
    (gsdvf_grid gcr height tilt pitch npoints).getD 0 0 =
      min 0 (1 - f_z1_limit gcr height tilt pitch) ∧
    (gsdvf_grid gcr height tilt pitch npoints).getD (3 * npoints - 1) 0 =
      max 1 (f_z0_limit gcr height tilt pitch) ∧
    (ground_sky_diffuse_view_factor gcr height tilt pitch npoints).1 =
      linspace 0 1 npoints ∧
    (ground_sky_diffuse_view_factor gcr height tilt pitch npoints).2.length =
      npoints ∧
    (∀ i : ℕ, i < npoints →
      (ground_sky_diffuse_view_factor gcr height tilt pitch
          npoints).1.getD i 0 = (i : ℝ) / ((npoints : ℝ) - 1)) ∧
    (ground_sky_diffuse_view_factor gcr height tilt pitch
        npoints).1.getD 0 0 = 0 ∧
    (ground_sky_diffuse_view_factor gcr height tilt pitch
        npoints).1.getD (npoints - 1) 0 = 1 ∧
    (ground_sky_diffuse_view_factor gcr height tilt pitch npoints).2 =
      (linspace 0 1 npoints).map (fun z =>
        interp z (gsdvf_grid gcr height tilt pitch npoints)
          ((gsdvf_grid gcr height tilt pitch npoints).map
            (fun w => gsdvf_point gcr height tilt pitch npoints w))) := by
  have h3n : 1 ≤ 3 * npoints := by omega
  have hcast : ((npoints : ℝ) - 1) ≠ 0 := by
    have : (2 : ℝ) ≤ (npoints : ℝ) := by exact_mod_cast hn
    linarith
  have hcast3 : ((3 * npoints : ℕ) : ℝ) - 1 ≠ 0 := by
    have : (6 : ℝ) ≤ ((3 * npoints : ℕ) : ℝ) := by
      exact_mod_cast Nat.mul_le_mul_left 3 hn
    linarith
  refine ⟨?_, ?_, ?_, ?_, ?_, ?_, ?_, ?_, ?_⟩
  · rw [gsdvf_grid, linspace_length]
  · rw [gsdvf_grid, linspace_getD _ _ _ _ (by omega)]
    norm_num
  · rw [gsdvf_grid, linspace_getD _ _ _ _ (by omega)]
    rw [Nat.cast_sub h3n]
    rw [Nat.cast_one]
    rw [mul_div_assoc, div_self hcast3, mul_one]
    ring
  · simp only [ground_sky_diffuse_view_factor]
  · simp only [ground_sky_diffuse_view_factor]
    rw [List.length_map, linspace_length]
  · intro i hi
    simp only [ground_sky_diffuse_view_factor]
    rw [linspace_getD _ _ _ _ hi]
    norm_num
  · simp only [ground_sky_diffuse_view_factor]
    rw [linspace_getD _ _ _ _ (by omega)]
    norm_num
  · simp only [ground_sky_diffuse_view_factor]
    rw [linspace_getD _ _ _ _ (by omega)]
    rw [Nat.cast_sub (by omega : 1 ≤ npoints)]
    rw [Nat.cast_one]
    rw [mul_div_assoc, div_self hcast, mul_one]
    ring
  · simp only [ground_sky_diffuse_view_factor, gsdvf_grid, gsdvf_point,
      start_if_eq_min, end_if_eq_max]

/-- C9 witness: `gcr = 1, height = 1, tilt = 1, pitch = 1, npoints = 2`. -/
theorem C9_structure_witness :
    (gsdvf_grid 1 1 1 1 2).length = 3 * 2 ∧
    (gsdvf_grid 1 1 1 1 2).getD 0 0 = min 0 (1 - f_z1_limit 1 1 1 1) ∧
    (gsdvf_grid 1 1 1 1 2).getD (3 * 2 - 1) 0 = max 1 (f_z0_limit 1 1 1 1) ∧
    (ground_sky_diffuse_view_factor 1 1 1 1 2).1 = linspace 0 1 2 ∧
    (ground_sky_diffuse_view_factor 1 1 1 1 2).2.length = 2 ∧
    (∀ i : ℕ, i < 2 →
      (ground_sky_diffuse_view_factor 1 1 1 1 2).1.getD i 0 =
        (i : ℝ) / ((2 : ℕ) - 1 : ℝ)) ∧
    (ground_sky_diffuse_view_factor 1 1 1 1 2).1.getD 0 0 = 0 ∧
    (ground_sky_diffuse_view_factor 1 1 1 1 2).1.getD (2 - 1) 0 = 1 ∧
    (ground_sky_diffuse_view_factor 1 1 1 1 2).2 =
      (linspace 0 1 2).map (fun z =>
        interp z (gsdvf_grid 1 1 1 1 2)
          ((gsdvf_grid 1 1 1 1 2).map
            (fun w => gsdvf_point 1 1 1 1 2 w))) :=
  C9_structure 1 1 1 1 2 le_rfl



